import Mathlib

/-!
Shallow embedding of the tars library (github.com/bpradana/tars): the
message/template conversation model, the errorbank taxonomy, and the
provider invocation pipeline, translated from the Go source.  Strings are
modelled as lists of characters; Go maps passed to Invoke are modelled as
association lists whose order stands for Go's (unspecified) map iteration
order, with values already rendered by fmt %v.
-/

namespace Tars

/-- Go strings, modelled as lists of characters. -/
abbrev Str := List Char

/-- Embeds a Lean string literal as a character list. -/
def str (s : String) : Str := s.toList

/-- Go strings.HasPrefix: startsWith pat s is true when pat occurs at the start of s. -/
def startsWith : Str → Str → Bool
  | [], _ => true
  | _ :: _, [] => false
  | p :: ps, c :: cs => decide (p = c) && startsWith ps cs

/-- Worker for strings.Replace with a non-empty pattern: scans left to right,
replacing leftmost non-overlapping occurrences and continuing after the
replaced text.  The fuel argument (instantiated with the scanned string's
length, which bounds the number of steps) makes the recursion structural. -/
def replaceAllFuel (pat rep : Str) : Nat → Str → Str
  | 0, s => s
  | _ + 1, [] => []
  | n + 1, c :: rest =>
    if startsWith pat (c :: rest) then
      rep ++ replaceAllFuel pat rep n (rest.drop (pat.length - 1))
    else
      c :: replaceAllFuel pat rep n rest

/-- Go strings.ReplaceAll(s, pat, rep).  An empty pattern inserts rep before
each character and at the end, as in Go. -/
def replaceAll (s pat rep : Str) : Str :=
  if pat = [] then rep ++ (s.map (fun c => c :: rep)).flatten
  else replaceAllFuel pat rep s.length s

/-- Worker for strings.Split with a non-empty separator, fuelled like
replaceAllFuel; splitting around each leftmost non-overlapping occurrence. -/
def splitAllFuel (pat : Str) : Nat → Str → List Str
  | 0, s => [s]
  | _ + 1, [] => [[]]
  | n + 1, c :: rest =>
    if startsWith pat (c :: rest) then
      [] :: splitAllFuel pat n (rest.drop (pat.length - 1))
    else
      match splitAllFuel pat n rest with
      | [] => [[c]]
      | p :: ps => (c :: p) :: ps

/-- Go strings.Split(s, pat).  An empty separator splits after every
character, as in Go. -/
def splitAll (s pat : Str) : List Str :=
  if pat = [] then s.map (fun c => [c])
  else splitAllFuel pat s.length s

/-- Go strings.Join(parts, sep): concatenates the parts separated by sep. -/
def joinWith (sep : Str) : List Str → Str
  | [] => []
  | [p] => p
  | p :: q :: ps => p ++ sep ++ joinWith sep (q :: ps)

/-- Occurrence check: containsSub pat s is true when pat occurs as a
contiguous substring of s (Go strings.Contains). -/
def containsSub (pat : Str) : Str → Bool
  | [] => startsWith pat []
  | c :: rest => startsWith pat (c :: rest) || containsSub pat rest

theorem splitAllFuel_ne_nil (pat : Str) (n : Nat) (s : Str) :
    splitAllFuel pat n s ≠ [] := by
  match n, s with
  | 0, s => simp [splitAllFuel]
  | n + 1, [] => simp [splitAllFuel]
  | n + 1, c :: rest =>
    simp only [splitAllFuel]
    split
    · simp
    · split <;> simp

theorem joinWith_cons_nil (sep : Str) (l : List Str) (h : l ≠ []) :
    joinWith sep ([] :: l) = sep ++ joinWith sep l := by
  cases l with
  | nil => exact absurd rfl h
  | cons p ps => rfl

/-- Replacing is joining the split parts with the replacement: the code's
scan agrees with the Join-of-Split characterization of ReplaceAll. -/
theorem replaceAllFuel_eq_joinWith (pat rep : Str) :
    ∀ (n : Nat) (s : Str),
      replaceAllFuel pat rep n s = joinWith rep (splitAllFuel pat n s) := by
  intro n
  induction n with
  | zero => intro s; rfl
  | succ n ih =>
    intro s
    cases s with
    | nil => rfl
    | cons c rest =>
      cases h : startsWith pat (c :: rest) with
      | true =>
        simp only [replaceAllFuel, splitAllFuel, h, if_true]
        rw [joinWith_cons_nil rep _ (splitAllFuel_ne_nil pat n _), ih]
      | false =>
        simp only [replaceAllFuel, splitAllFuel, h, Bool.false_eq_true, if_false]
        rw [ih]
        rcases hs : splitAllFuel pat n rest with _ | ⟨p, ps⟩
        · exact absurd hs (splitAllFuel_ne_nil pat n rest)
        · cases ps with
          | nil => rfl
          | cons q qs => rfl

/-- ReplaceAll with a non-empty pattern equals joining the split parts with
the replacement string. -/
theorem replaceAll_eq_joinWith (s pat rep : Str) (h : pat ≠ []) :
    replaceAll s pat rep = joinWith rep (splitAll s pat) := by
  simp [replaceAll, splitAll, h, replaceAllFuel_eq_joinWith]

theorem splitAllFuel_of_not_contains (pat : Str) :
    ∀ (n : Nat) (s : Str), containsSub pat s = false → splitAllFuel pat n s = [s] := by
  intro n
  induction n with
  | zero => intro s _; rfl
  | succ n ih =>
    intro s hc
    cases s with
    | nil => rfl
    | cons c rest =>
      simp only [containsSub, Bool.or_eq_false_iff] at hc
      simp only [splitAllFuel, hc.1, Bool.false_eq_true, if_false]
      rw [ih rest hc.2]

/-- A pattern that does not occur in the string leaves ReplaceAll a no-op. -/
theorem replaceAll_of_not_contains (s pat rep : Str) (h : pat ≠ [])
    (hc : containsSub pat s = false) : replaceAll s pat rep = s := by
  simp [replaceAll, h, splitAllFuel_of_not_contains pat s.length s hc,
    replaceAllFuel_eq_joinWith, joinWith]

/-! Error taxonomy: package errorbank.  A Go error value is either nil
(Option.none at use sites) or one of these concrete error values;
constructors built outside errorbank (fmt.Errorf, transport failures,
json errors) are modelled by the external constructor. -/

/-- Usage tracks token usage information for LLM requests (package message). -/
structure Usage where
  promptTokens : Int
  completionTokens : Int
  totalTokens : Int
deriving DecidableEq

/-- Zero value of the Go usage struct. -/
def usageZero : Usage := { promptTokens := 0, completionTokens := 0, totalTokens := 0 }

/-- A message with role, content and usage (package message).  RoleType is a
Go string type, kept as Str. -/
structure Message where
  role : Str
  content : Str
  usage : Usage
deriving DecidableEq

/-- Values carried in a ValidationError's any-typed Value field: the code
stores strings (role/content/api key) or a message slice. -/
inductive GoValue where
  | s (v : Str)
  | msgs (v : List Message)

/-- Go error values reachable in this library: the three errorbank kinds
plus errors produced outside errorbank (transport, json, fmt.Errorf). -/
inductive GoError where
  | messageError (operation msg : Str) (cause : Option GoError)
  | templateError (varName msg : Str) (cause : Option GoError)
  | validationError (field msg : Str) (value : GoValue)
  | external (msg : Str)

/-- errorbank.NewMessageError. -/
def NewMessageError (operation msg : Str) (cause : Option GoError) : GoError :=
  GoError.messageError operation msg cause

/-- errorbank.NewTemplateError. -/
def NewTemplateError (varName msg : Str) (cause : Option GoError) : GoError :=
  GoError.templateError varName msg cause

/-- errorbank.NewValidationError. -/
def NewValidationError (field msg : Str) (value : GoValue) : GoError :=
  GoError.validationError field msg value

/-- errorbank.IsMessageError: a type assertion err.(*MessageError); false on
a nil error. -/
def IsMessageError : Option GoError → Bool
  | some (GoError.messageError _ _ _) => true
  | _ => false

/-- errorbank.IsTemplateError: a type assertion err.(*TemplateError). -/
def IsTemplateError : Option GoError → Bool
  | some (GoError.templateError _ _ _) => true
  | _ => false

/-- errorbank.IsValidationError: a type assertion err.(*ValidationError). -/
def IsValidationError : Option GoError → Bool
  | some (GoError.validationError _ _ _) => true
  | _ => false

/-! Message model (package message). -/

/-- RoleSystem constant. -/
def roleSystem : Str := str ("system")

/-- RoleUser constant. -/
def roleUser : Str := str ("user")

/-- RoleAssistant constant. -/
def roleAssistant : Str := str ("assistant")

/-- message.FromSystem: both branches of the empty-content check build the
same value (the empty branch exists to document that validation, not the
constructor, rejects empty content). -/
def FromSystem (content : Str) : Message :=
  if content = [] then { role := roleSystem, content := [], usage := usageZero }
  else { role := roleSystem, content := content, usage := usageZero }

/-- message.FromUser. -/
def FromUser (content : Str) : Message :=
  if content = [] then { role := roleUser, content := [], usage := usageZero }
  else { role := roleUser, content := content, usage := usageZero }

/-- messageOptions collected by the functional options of FromAssistant. -/
structure MessageOptions where
  usage : Usage

/-- message.WithUsage. -/
def WithUsage (promptTokens completionTokens totalTokens : Int) :
    MessageOptions → MessageOptions :=
  fun m => { m with usage := { promptTokens := promptTokens,
                               completionTokens := completionTokens,
                               totalTokens := totalTokens } }

/-- message.FromAssistant. -/
def FromAssistant (content : Str) (options : List (MessageOptions → MessageOptions)) :
    Message :=
  let opts := options.foldl (fun acc f => f acc) { usage := usageZero }
  { role := roleAssistant, content := content, usage := opts.usage }

/-- Placeholder formatting in message.Invoke: fmt.Sprintf of a name wrapped
in double braces. -/
def placeholder (k : Str) : Str := str ("\x7b\x7b") ++ k ++ str ("\x7d\x7d")

/-- message.Invoke: with an empty mapping returns the message unchanged;
otherwise folds strings.ReplaceAll over the mapping's entries, each value in
its fmt %v string form, building a new message with the same role and usage. -/
def Message.invoke (m : Message) (v : List (Str × Str)) : Message :=
  if v.length = 0 then m
  else
    { role := m.role,
      content := v.foldl (fun content kv => replaceAll content (placeholder kv.1) kv.2) m.content,
      usage := m.usage }

/-- message.Validate. -/
def Message.validate (m : Message) : Option GoError :=
  if m.role = [] then
    some (NewValidationError (str ("role")) (str ("cannot be empty")) (GoValue.s m.role))
  else if m.content = [] then
    some (NewValidationError (str ("content")) (str ("cannot be empty")) (GoValue.s m.content))
  else if m.role = roleSystem ∨ m.role = roleUser ∨ m.role = roleAssistant then
    none
  else
    some (NewValidationError (str ("role")) (str ("invalid role type")) (GoValue.s m.role))

/-! JSON serialization.  encoding/json is embedded for the concrete struct
shapes the library marshals: the message struct has no field tags, so Go
emits its exported field names verbatim (Role, Content, Usage) in
declaration order; strings are escaped with Go's default HTML-escaping
encoder; ints print in decimal. -/

/-- Lower-case hexadecimal digit, as used by Go's JSON encoder. -/
def hexDigit (n : Nat) : Char := (str ("0123456789abcdef")).getD n '0'

/-- Escape of a single character inside a Go JSON string literal
(encoding/json with the default escapeHTML behavior). -/
def jsonEscapeChar (c : Char) : Str :=
  if c = '"' then str ("\\\"")
  else if c = '\\' then str ("\\\\")
  else if c = '\n' then str ("\\n")
  else if c = '\r' then str ("\\r")
  else if c = '\t' then str ("\\t")
  else if c = '<' then str ("\\u003c")
  else if c = '>' then str ("\\u003e")
  else if c = '&' then str ("\\u0026")
  else if c.toNat < 32 then str ("\\u00") ++ [hexDigit (c.toNat / 16), hexDigit (c.toNat % 16)]
  else if c.toNat = 0x2028 then str ("\\u2028")
  else if c.toNat = 0x2029 then str ("\\u2029")
  else [c]

/-- A Go JSON string literal: quoted, escaped. -/
def jsonQuote (s : Str) : Str :=
  str ("\"") ++ (s.map jsonEscapeChar).flatten ++ str ("\"")

/-- Decimal rendering of a Go int. -/
def intStr (i : Int) : Str := (toString i).toList

/-- Decimal rendering of a Go non-negative int (loop indices). -/
def natStr (n : Nat) : Str := (toString n).toList

/-- json.Marshal of the usage struct (exported fields, no tags). -/
def usageToJSON (u : Usage) : Str :=
  str ("\x7b\"PromptTokens\":") ++ intStr u.promptTokens ++
  str (",\"CompletionTokens\":") ++ intStr u.completionTokens ++
  str (",\"TotalTokens\":") ++ intStr u.totalTokens ++ str ("\x7d")

/-- message.ToJSON: json.Marshal of the message struct.  The struct carries
no json field tags, so the keys are the exported Go field names; marshalling
of these field types cannot fail, so the empty-string error branch of the Go
code is unreachable. -/
def Message.toJSON (m : Message) : Str :=
  str ("\x7b\"Role\":") ++ jsonQuote m.role ++
  str (",\"Content\":") ++ jsonQuote m.content ++
  str (",\"Usage\":") ++ usageToJSON m.usage ++ str ("\x7d")

/-! Template model (package template). -/

/-- A template holds an ordered message slice. -/
structure Template where
  message : List Message

/-- template.From: variadic constructor. -/
def From (messages : List Message) : Template := { message := messages }

/-- template.Invoke: an empty mapping returns the template unchanged;
otherwise every message is invoked with the same mapping, positionally. -/
def Template.invoke (t : Template) (v : List (Str × Str)) : Template :=
  if v.length = 0 then t
  else { message := t.message.map (fun m => Message.invoke m v) }

/-- template.ToJSON: json.Marshal of the message slice (a JSON array of the
untagged message structs; a nil slice would render as null, a distinction a
list model cannot draw and no claim exercises). -/
def Template.toJSON (t : Template) : Str :=
  str ("[") ++ joinWith (str (",")) (t.message.map Message.toJSON) ++ str ("]")

/-- Positional loop of template.Validate: first failing message wins and is
wrapped in a TemplateError naming its index. -/
def validateFrom : List Message → Nat → Option GoError
  | [], _ => none
  | m :: rest, i =>
    match Message.validate m with
    | some e =>
      some (NewTemplateError (str ("message[") ++ natStr i ++ str ("]"))
        (str ("validation failed")) (some e))
    | none => validateFrom rest (i + 1)

/-- template.Validate. -/
def Template.validate (t : Template) : Option GoError :=
  if t.message.length = 0 then
    some (NewValidationError (str ("messages")) (str ("template cannot be empty"))
      (GoValue.msgs t.message))
  else validateFrom t.message 0

/-! Provider layer (package llm). -/

/-- llmOptions: per-provider configuration.  Durations are nanoseconds, as
in Go's time.Duration. -/
structure LLMOptions where
  baseURL : Str
  apiKey : Str
  timeout : Nat
  maxAttempts : Nat
  maxDelay : Nat

/-- One second in time.Duration units. -/
def second : Nat := 1000000000

/-- llm.WithBaseURL. -/
def WithBaseURL (baseURL : Str) : LLMOptions → LLMOptions :=
  fun o => { o with baseURL := baseURL }

/-- llm.WithAPIKey. -/
def WithAPIKey (apiKey : Str) : LLMOptions → LLMOptions :=
  fun o => { o with apiKey := apiKey }

/-- llm.WithTimeout. -/
def WithTimeout (timeout : Nat) : LLMOptions → LLMOptions :=
  fun o => { o with timeout := timeout }

/-- llm.WithMaxAttempts. -/
def WithMaxAttempts (maxAttempts : Nat) : LLMOptions → LLMOptions :=
  fun o => { o with maxAttempts := maxAttempts }

/-- llm.WithMaxDelay. -/
def WithMaxDelay (maxDelay : Nat) : LLMOptions → LLMOptions :=
  fun o => { o with maxDelay := maxDelay }

/-- Option literal at the top of NewOpenRouter, before user options apply. -/
def openRouterDefaults : LLMOptions :=
  { baseURL := str ("https://openrouter.ai/api/v1"), apiKey := [],
    timeout := 10 * second, maxAttempts := 1, maxDelay := 0 }

/-- Option literal at the top of NewAnthropic. -/
def anthropicDefaults : LLMOptions :=
  { baseURL := str ("https://api.anthropic.com"), apiKey := [],
    timeout := 10 * second, maxAttempts := 1, maxDelay := 0 }

/-- Option literal at the top of NewOllama. -/
def ollamaDefaults : LLMOptions :=
  { baseURL := str ("http://localhost:11434"), apiKey := [],
    timeout := 10 * second, maxAttempts := 1, maxDelay := 0 }

/-- Resolved options of a constructed provider: defaults folded with the
caller's functional options (NewOpenRouter / NewAnthropic / NewOllama). -/
def resolveOptions (defaults : LLMOptions) (options : List (LLMOptions → LLMOptions)) :
    LLMOptions :=
  options.foldl (fun acc f => f acc) defaults

/-- An opaque JSON-schema object (map[string]any), carried but never
inspected by the pipeline. -/
abbrev SchemaMap := List (Str × Str)

/-- invokeOptions: per-call configuration.  The float64 temperature is only
ever carried, never computed with, and is modelled as a rational.  The
structuredOutput target pointer is opaque; only its presence matters. -/
structure InvokeOptions where
  model : Str
  temperature : ℚ
  maxTokens : Int
  structuredOutput : Bool
  jsonSchema : Option SchemaMap

/-- llm.WithModel. -/
def WithModel (model : Str) : InvokeOptions → InvokeOptions :=
  fun o => { o with model := model }

/-- llm.WithMaxTokens. -/
def WithMaxTokens (maxTokens : Int) : InvokeOptions → InvokeOptions :=
  fun o => { o with maxTokens := maxTokens }

/-! Wire types (llm/presentation.go). -/

/-- Wire Message: role and content (plus refusal on responses, kept here). -/
structure WireMessage where
  role : Str
  content : Str

/-- JsonSchema wire struct. -/
structure JsonSchemaWire where
  name : Str
  strict : Bool
  schema : SchemaMap

/-- ResponseFormat wire struct. -/
structure ResponseFormat where
  type : Str
  jsonSchema : JsonSchemaWire

/-- ChatCompletionsRequest wire struct. -/
structure ChatCompletionsRequest where
  model : Str
  messages : List WireMessage
  responseFormat : Option ResponseFormat

/-- Usage wire struct of the response. -/
structure WireUsage where
  promptTokens : Int
  completionTokens : Int
  totalTokens : Int

/-- Message struct inside a response choice. -/
structure RespMessage where
  role : Str
  content : Str
  refusal : Str

/-- Choice wire struct.  LogProbs is an opaque map. -/
structure Choice where
  message : RespMessage
  logProbs : SchemaMap
  finishReason : Str
  index : Int

/-- ChatCompletionsResponse wire struct. -/
structure ChatCompletionsResponse where
  id : Str
  choices : List Choice
  provider : Str
  model : Str
  object : Str
  created : Int
  systemFingerprint : Str
  usage : WireUsage

/-- Modelled from the spec: the failsafe retrier (github.com/bpradana/failsafe,
a dependency whose source is not part of this repository).  Spec section 4.4
step 5: a fixed number of attempts separated by a fixed delay; any error
triggers a retry up to the attempt budget; the final error is surfaced.  The
delay has no observable effect in a pure embedding.  retryAux op m k runs
attempt k with m further attempts allowed after it. -/
def retryAux {α : Type} (op : Nat → Except GoError α) : Nat → Nat → Except GoError α × Nat
  | 0, k => (op k, k + 1)
  | m + 1, k =>
    match op k with
    | Except.ok a => (Except.ok a, k + 1)
    | Except.error _ => retryAux op m (k + 1)

/-- Modelled from the spec: failsafe.RetryWithResult under a retrier built
with WithMaxAttempts n and a fixed delay.  Returns the final result paired
with the number of times the operation ran. -/
def retryWithResult {α : Type} (n : Nat) (op : Nat → Except GoError α) :
    Except GoError α × Nat :=
  retryAux op (n - 1) 0

/-- Per-backend variation among the four provider Invoke implementations:
default model, request path, whether an API key is demanded (with the
message used when it is missing), whether the request attaches a
response_format for structured output, and whether the structured-output
unmarshal step exists (the Anthropic variant has neither). -/
structure Dialect where
  name : Str
  defaultModel : Str
  path : Str
  apiKeyRequiredMsg : Option Str
  sendsResponseFormat : Bool
  unmarshalsStructuredOutput : Bool

/-- OpenRouterProvider dialect. -/
def openRouterDialect : Dialect :=
  { name := str ("openrouter"), defaultModel := str ("gpt-4o-mini"),
    path := str ("/chat/completions"),
    apiKeyRequiredMsg := some (str ("OpenRouter API key is required")),
    sendsResponseFormat := true, unmarshalsStructuredOutput := true }

/-- AnthropicProvider dialect. -/
def anthropicDialect : Dialect :=
  { name := str ("anthropic"), defaultModel := str ("claude-3-5-sonnet-20240620"),
    path := str ("/chat/completions"),
    apiKeyRequiredMsg := some (str ("Anthropic API key is required")),
    sendsResponseFormat := false, unmarshalsStructuredOutput := false }

/-- OllamaProvider dialect: a local server, no API key demanded. -/
def ollamaDialect : Dialect :=
  { name := str ("ollama"), defaultModel := str ("llama3.1:8b"),
    path := str ("/chat"),
    apiKeyRequiredMsg := none,
    sendsResponseFormat := true, unmarshalsStructuredOutput := true }

/-- The invokeOptions literal each Invoke starts from before caller options
apply. -/
def defaultInvokeOptions (d : Dialect) : InvokeOptions :=
  { model := d.defaultModel, temperature := 7 / 10, maxTokens := 1000,
    structuredOutput := false, jsonSchema := none }

/-- The transport-and-decode tail of a provider's Invoke, entered once the
pre-flight checks pass.  The transport is the external HTTP collaborator:
post is the client's Post (given the built request and the zero-based
attempt number), decode is Response.Decode, and unmarshalTarget is
json.Unmarshal into the caller's structured-output target (none on
success).  The returned pair carries the Go (Message, error) result and the
number of transport calls performed. -/
def providerSend (ρ : Type) (d : Dialect) (o : LLMOptions) (t : Template)
    (opts : InvokeOptions)
    (post : ChatCompletionsRequest → Nat → Except GoError ρ)
    (decode : ρ → Except GoError ChatCompletionsResponse)
    (unmarshalTarget : Str → Option GoError) :
    Except GoError Message × Nat :=
  let req : ChatCompletionsRequest :=
    { model := opts.model,
      messages := t.message.map (fun m => { role := m.role, content := m.content }),
      responseFormat :=
        if d.sendsResponseFormat then
          match opts.jsonSchema with
          | some schema =>
            some { type := str ("json_schema"),
                   jsonSchema := { name := str ("schema"), strict := true, schema := schema } }
          | none => none
        else none }
  match retryWithResult o.maxAttempts (fun k => post req k) with
  | (Except.error e, n) =>
    (Except.error (NewMessageError (str ("http_request"))
      (str ("failed to create request")) (some e)), n)
  | (Except.ok resp, n) =>
    match decode resp with
    | Except.error e =>
      (Except.error (NewMessageError (str ("response_decode"))
        (str ("failed to decode response")) (some e)), n)
    | Except.ok result =>
      match result.choices with
      | [] =>
        (Except.error (NewMessageError (str ("no_choices"))
          (str ("no choices in response")) none), n)
      | c :: _ =>
        let success :=
          (Except.ok (FromAssistant c.message.content
            [WithUsage result.usage.promptTokens result.usage.completionTokens
              result.usage.totalTokens]), n)
        if d.unmarshalsStructuredOutput then
          match opts.jsonSchema with
          | some _ =>
            match unmarshalTarget c.message.content with
            | some e =>
              (Except.error (NewMessageError (str ("json_unmarshal"))
                (str ("failed to unmarshal structured output")) (some e)), n)
            | none => success
          | none => success
        else success

/-- A provider's Invoke: validate the template (before anything else), fold
the caller's invoke options over the dialect's defaults, check the API key
when the dialect demands one, then run the transport tail.  The second
component of the result counts transport calls; both error pre-flight paths
perform zero. -/
def providerInvoke (ρ : Type) (d : Dialect) (o : LLMOptions) (t : Template)
    (options : List (InvokeOptions → InvokeOptions))
    (post : ChatCompletionsRequest → Nat → Except GoError ρ)
    (decode : ρ → Except GoError ChatCompletionsResponse)
    (unmarshalTarget : Str → Option GoError) :
    Except GoError Message × Nat :=
  match Template.validate t with
  | some err =>
    (Except.error (NewMessageError (str ("template_validation"))
      (str ("invalid template provided")) (some err)), 0)
  | none =>
    let opts := options.foldl (fun acc f => f acc) (defaultInvokeOptions d)
    match d.apiKeyRequiredMsg with
    | some keyMsg =>
      if o.apiKey = [] then
        (Except.error (NewValidationError (str ("api_key")) keyMsg (GoValue.s [])), 0)
      else providerSend ρ d o t opts post decode unmarshalTarget
    | none => providerSend ρ d o t opts post decode unmarshalTarget

/-! Structured-output schema derivation (llm.WithStructuredOutput). -/

/-- Outcome of a Go call that may panic. -/
inductive GoExec (α : Type) where
  | ok (a : α)
  | crash (msg : Str)

/-- What the external schema-derivation collaborators produce for a given
target: the Ref of the schema returned by jsonschema.Reflect, the
MarshalJSON result for a definition name, and the json.Unmarshal result for
the marshalled bytes (none when unmarshalling fails, leaving the nil map). -/
structure DerivationOutcome where
  ref : Str
  marshalDefinition : Str → Except GoError Str
  unmarshalSchema : Str → Option SchemaMap

/-- llm.WithStructuredOutput applied to invoke options: splits the
reflected schema's Ref on the $defs separator and indexes element 1
(panicking, as Go does, when the separator is absent so the split has one
element), then marshals that definition discarding the error and
unmarshals the bytes discarding the error, so a failed derivation leaves
jsonSchema nil with no error surfaced. -/
def WithStructuredOutput (outcome : DerivationOutcome) :
    InvokeOptions → GoExec InvokeOptions :=
  fun llm =>
    match splitAll outcome.ref (str ("#/$defs/")) with
    | [] => GoExec.crash (str ("runtime error: index out of range"))
    | [_] => GoExec.crash (str ("runtime error: index out of range"))
    | _ :: defName :: _ =>
      let schemaDefinition : Str :=
        match outcome.marshalDefinition defName with
        | Except.ok bytes => bytes
        | Except.error _ => []
      GoExec.ok { llm with structuredOutput := true,
                           jsonSchema := outcome.unmarshalSchema schemaDefinition }

/-! Supporting lemmas for the claims. -/

theorem placeholder_ne_nil (k : Str) : placeholder k ≠ [] := by
  intro h
  exact List.noConfusion (show ('\x7b' :: '\x7b' :: (k ++ str ("\x7d\x7d"))) = ([] : Str) from h)

theorem foldl_replaceAll_no_contains :
    ∀ (vars : List (Str × Str)) (c : Str),
      (∀ kv ∈ vars, containsSub (placeholder kv.1) c = false) →
      vars.foldl (fun content kv => replaceAll content (placeholder kv.1) kv.2) c = c := by
  intro vars
  induction vars with
  | nil => intro c _; rfl
  | cons kv rest ih =>
    intro c h
    simp only [List.foldl_cons]
    rw [replaceAll_of_not_contains c _ kv.2 (placeholder_ne_nil kv.1) (h kv (by simp))]
    exact ih c (fun x hx => h x (by simp [hx]))

theorem validateFrom_all_none :
    ∀ (l : List Message) (s : Nat),
      (∀ m ∈ l, Message.validate m = none) → validateFrom l s = none := by
  intro l
  induction l with
  | nil => intro s _; rfl
  | cons m rest ih =>
    intro s h
    have hm : Message.validate m = none := h m (by simp)
    simp only [validateFrom, hm]
    exact ih (s + 1) (fun x hx => h x (by simp [hx]))

theorem validateFrom_first_fail :
    ∀ (l : List Message) (s i : Nat) (h : i < l.length) (e : GoError),
      (∀ (j : Nat) (hj : j < i), Message.validate (l.get ⟨j, Nat.lt_trans hj h⟩) = none) →
      Message.validate (l.get ⟨i, h⟩) = some e →
      validateFrom l s =
        some (NewTemplateError (str ("message[") ++ natStr (s + i) ++ str ("]"))
          (str ("validation failed")) (some e)) := by
  intro l
  induction l with
  | nil => intro s i h; simp at h
  | cons m rest ih =>
    intro s i h e hprev hfail
    cases i with
    | zero =>
      have hm : Message.validate m = some e := hfail
      simp [validateFrom, hm]
    | succ i =>
      have h0 : Message.validate m = none := hprev 0 (Nat.succ_pos i)
      simp only [validateFrom, h0]
      have harith : s + (i + 1) = (s + 1) + i := by omega
      rw [harith]
      exact ih (s + 1) i (by simpa using h) e (fun j hj => hprev (j + 1) (by omega)) hfail

theorem retryAux_all_fail {α : Type} (op : Nat → Except GoError α) (e : Nat → GoError)
    (hop : ∀ k, op k = Except.error (e k)) :
    ∀ (m k : Nat), retryAux op m k = (Except.error (e (m + k)), m + k + 1) := by
  intro m
  induction m with
  | zero => intro k; simp [retryAux, hop k]
  | succ m ih =>
    intro k
    simp only [retryAux, hop k]
    rw [ih (k + 1)]
    have harith : m + (k + 1) = m + 1 + k := by omega
    rw [harith]

theorem retryWithResult_all_fail {α : Type} (n : Nat) (hn : 1 ≤ n)
    (op : Nat → Except GoError α) (e : Nat → GoError)
    (hop : ∀ k, op k = Except.error (e k)) :
    retryWithResult n op = (Except.error (e (n - 1)), n) := by
  unfold retryWithResult
  rw [retryAux_all_fail op e hop (n - 1) 0]
  have h1 : n - 1 + 0 = n - 1 := by omega
  have h2 : n - 1 + 0 + 1 = n := by omega
  rw [h1, h2]

theorem providerSend_transport_fail (ρ : Type) (d : Dialect) (o : LLMOptions)
    (t : Template) (opts : InvokeOptions) (e : Nat → GoError)
    (decode : ρ → Except GoError ChatCompletionsResponse)
    (unmarshalTarget : Str → Option GoError)
    (hn : 1 ≤ o.maxAttempts) :
    providerSend ρ d o t opts (fun _ k => Except.error (e k)) decode unmarshalTarget =
      (Except.error (NewMessageError (str ("http_request"))
        (str ("failed to create request")) (some (e (o.maxAttempts - 1)))), o.maxAttempts) := by
  simp only [providerSend]
  rw [retryWithResult_all_fail o.maxAttempts hn _ e (fun k => rfl)]

/-! Claim theorems. -/

set_option maxRecDepth 8192 in
/-- C1: the claim states that From(FromSystem S, FromUser U).Invoke({}).ToJSON()
yields lower-case role/content keys with no usage field.  The message struct
carries no json field tags, so json.Marshal emits the exported Go field
names Role, Content and Usage (always present); the repository's own
Test_ToJSON expects the lower-case shape, so the code contradicts its tests.
This theorem evaluates the embedded code at the failing input, exhibiting the
actual serialization and that it differs from the claimed one. -/
theorem template_toJSON_marshals_go_field_names :
    Template.toJSON (Template.invoke (From [FromSystem (str ("You are a helpful assistant.")),
        FromUser (str ("What is the capital of France?"))]) []) =
      str ("[\x7b\"Role\":\"system\",\"Content\":\"You are a helpful assistant.\",\"Usage\":\x7b\"PromptTokens\":0,\"CompletionTokens\":0,\"TotalTokens\":0\x7d\x7d,\x7b\"Role\":\"user\",\"Content\":\"What is the capital of France?\",\"Usage\":\x7b\"PromptTokens\":0,\"CompletionTokens\":0,\"TotalTokens\":0\x7d\x7d]")
  ∧ Template.toJSON (Template.invoke (From [FromSystem (str ("You are a helpful assistant.")),
        FromUser (str ("What is the capital of France?"))]) []) ≠
      str ("[\x7b\"role\":\"system\",\"content\":\"You are a helpful assistant.\"\x7d,\x7b\"role\":\"user\",\"content\":\"What is the capital of France?\"\x7d]") :=
  ⟨rfl, by decide⟩

/-- C2: the claim states that WithStructuredOutput reports a failed schema
derivation as an error and never swallows it.  The Go code discards the
MarshalJSON and Unmarshal errors with blank identifiers and indexes the
split of schema.Ref at position 1 unconditionally, so a derivation whose
marshalling fails is swallowed (options are returned normally with a nil
schema) and a reflected schema without a $defs reference panics.  This
theorem evaluates the embedded code at both failing inputs. -/
theorem withStructuredOutput_discards_derivation_errors :
    WithStructuredOutput
        { ref := str ("#/$defs/Weather"),
          marshalDefinition := fun _ => Except.error (GoError.external (str ("marshal failure"))),
          unmarshalSchema := fun _ => none }
        (defaultInvokeOptions openRouterDialect) =
      GoExec.ok { defaultInvokeOptions openRouterDialect with
                    structuredOutput := true, jsonSchema := none }
  ∧ WithStructuredOutput
        { ref := str (""), marshalDefinition := fun _ => Except.ok [],
          unmarshalSchema := fun _ => none }
        (defaultInvokeOptions openRouterDialect) =
      GoExec.crash (str ("runtime error: index out of range")) :=
  ⟨rfl, rfl⟩

/-- C3: on a template that fails Validate, every provider dialect's Invoke
returns a MessageError tagged template_validation wrapping the underlying
validation error, and performs zero transport calls. -/
theorem provider_invoke_template_validation (ρ : Type) (d : Dialect) (o : LLMOptions)
    (t : Template) (options : List (InvokeOptions → InvokeOptions))
    (post : ChatCompletionsRequest → Nat → Except GoError ρ)
    (decode : ρ → Except GoError ChatCompletionsResponse)
    (unmarshalTarget : Str → Option GoError) (err : GoError)
    (h : Template.validate t = some err) :
    providerInvoke ρ d o t options post decode unmarshalTarget =
      (Except.error (NewMessageError (str ("template_validation"))
        (str ("invalid template provided")) (some err)), 0) := by
  simp [providerInvoke, h]

/-- Witness for C3: the empty template fails validation, and OpenRouter's
Invoke short-circuits with the template_validation MessageError after zero
transport calls. -/
theorem provider_invoke_template_validation_witness :
    providerInvoke Unit openRouterDialect openRouterDefaults (From []) []
        (fun _ _ => Except.error (GoError.external (str ("network down"))))
        (fun _ => Except.error (GoError.external (str ("no decode"))))
        (fun _ => none) =
      (Except.error (NewMessageError (str ("template_validation"))
        (str ("invalid template provided"))
        (some (NewValidationError (str ("messages")) (str ("template cannot be empty"))
          (GoValue.msgs [])))), 0) :=
  provider_invoke_template_validation Unit openRouterDialect openRouterDefaults (From []) []
    (fun _ _ => Except.error (GoError.external (str ("network down"))))
    (fun _ => Except.error (GoError.external (str ("no decode"))))
    (fun _ => none) _ rfl

/-- C4: with maxAttempts N at least 1 and a transport failing at every
attempt, Invoke on a valid, key-satisfying configuration performs exactly N
transport calls and returns an http_request MessageError wrapping the last
transport error; and the construction-time defaults of all three retrying
providers are maxAttempts 1 and delay 0, with WithMaxAttempts overriding
the default. -/
theorem provider_invoke_retry_budget :
    (∀ (ρ : Type) (d : Dialect) (o : LLMOptions) (t : Template)
        (options : List (InvokeOptions → InvokeOptions))
        (e : Nat → GoError)
        (decode : ρ → Except GoError ChatCompletionsResponse)
        (unmarshalTarget : Str → Option GoError),
      Template.validate t = none →
      d.apiKeyRequiredMsg = none ∨ o.apiKey ≠ [] →
      1 ≤ o.maxAttempts →
      providerInvoke ρ d o t options (fun _ k => Except.error (e k)) decode unmarshalTarget =
        (Except.error (NewMessageError (str ("http_request"))
          (str ("failed to create request")) (some (e (o.maxAttempts - 1)))), o.maxAttempts))
  ∧ openRouterDefaults.maxAttempts = 1 ∧ openRouterDefaults.maxDelay = 0
  ∧ anthropicDefaults.maxAttempts = 1 ∧ anthropicDefaults.maxDelay = 0
  ∧ ollamaDefaults.maxAttempts = 1 ∧ ollamaDefaults.maxDelay = 0
  ∧ (∀ (n : Nat), (resolveOptions openRouterDefaults [WithMaxAttempts n]).maxAttempts = n) := by
  refine ⟨?_, rfl, rfl, rfl, rfl, rfl, rfl, fun n => rfl⟩
  intro ρ d o t options e decode unmarshalTarget hval hkey hn
  rcases hd : d.apiKeyRequiredMsg with _ | keyMsg
  · simp only [providerInvoke, hval, hd]
    exact providerSend_transport_fail ρ d o t _ e decode unmarshalTarget hn
  · rcases hkey with hnone | hkeyne
    · rw [hd] at hnone; exact Option.noConfusion hnone
    · simp only [providerInvoke, hval, hd, if_neg hkeyne]
      exact providerSend_transport_fail ρ d o t _ e decode unmarshalTarget hn

/-- Witness for C4: OpenRouter configured with an API key and maxAttempts 3
against an always-failing transport makes exactly 3 transport calls and
surfaces the http_request MessageError wrapping the last failure. -/
theorem provider_invoke_retry_budget_witness :
    providerInvoke Unit openRouterDialect
        { openRouterDefaults with apiKey := str ("k"), maxAttempts := 3 }
        (From [FromUser (str ("hi"))]) []
        (fun _ k => Except.error (GoError.external (natStr k)))
        (fun _ => Except.error (GoError.external (str ("no decode"))))
        (fun _ => none) =
      (Except.error (NewMessageError (str ("http_request"))
        (str ("failed to create request")) (some (GoError.external (natStr 2)))), 3) :=
  provider_invoke_retry_budget.1 Unit openRouterDialect
    { openRouterDefaults with apiKey := str ("k"), maxAttempts := 3 }
    (From [FromUser (str ("hi"))]) []
    (fun k => GoError.external (natStr k))
    (fun _ => Except.error (GoError.external (str ("no decode"))))
    (fun _ => none) rfl (Or.inr (by decide)) (by decide)

/-- C5: Invoke on a message replaces, for each key of the mapping, every
occurrence of its braced placeholder with the supplied value (stated as the
Join-of-Split characterization of ReplaceAll); keys whose placeholder does
not occur in the content leave the content unchanged; and the spec's
concrete example substitutes country with France, with an unmatched
placeholder left verbatim. -/
theorem message_invoke_substitution :
    (∀ (m : Message) (k v : Str),
        (Message.invoke m [(k, v)]).content = joinWith v (splitAll m.content (placeholder k)))
  ∧ (∀ (m : Message) (vars : List (Str × Str)),
        (∀ kv ∈ vars, containsSub (placeholder kv.1) m.content = false) →
        (Message.invoke m vars).content = m.content)
  ∧ ((Message.invoke
        { role := roleUser, content := str ("What is the capital of \x7b\x7bcountry\x7d\x7d?"), usage := usageZero }
        [(str ("country"), str ("France"))]).content =
      str ("What is the capital of France?"))
  ∧ ((Message.invoke
        { role := roleUser, content := str ("\x7b\x7bcountry\x7d\x7d is near \x7b\x7bcity\x7d\x7d."), usage := usageZero }
        [(str ("country"), str ("France"))]).content =
      str ("France is near \x7b\x7bcity\x7d\x7d.")) := by
  refine ⟨?_, ?_, rfl, rfl⟩
  · intro m k v
    simp only [Message.invoke, List.length_cons, List.length_nil]
    rw [if_neg (by omega)]
    simp only [List.foldl_cons, List.foldl_nil]
    exact replaceAll_eq_joinWith m.content (placeholder k) v (placeholder_ne_nil k)
  · intro m vars h
    by_cases hlen : vars.length = 0
    · simp [Message.invoke, hlen]
    · simp only [Message.invoke, hlen, if_false]
      exact foldl_replaceAll_no_contains vars m.content h

/-- Witness for C5: the general conjuncts applied at concrete inputs, with
the no-occurrence hypothesis discharged by evaluation. -/
theorem message_invoke_substitution_witness :
    (Message.invoke
        { role := roleUser, content := str ("Hello \x7b\x7bname\x7d\x7d"), usage := usageZero }
        [(str ("name"), str ("Alice"))]).content =
      joinWith (str ("Alice"))
        (splitAll (str ("Hello \x7b\x7bname\x7d\x7d")) (placeholder (str ("name"))))
  ∧ (Message.invoke
        { role := roleUser, content := str ("Hello"), usage := usageZero }
        [(str ("name"), str ("Alice"))]).content = str ("Hello") :=
  ⟨message_invoke_substitution.1
      { role := roleUser, content := str ("Hello \x7b\x7bname\x7d\x7d"), usage := usageZero }
      (str ("name")) (str ("Alice")),
   message_invoke_substitution.2.1
      { role := roleUser, content := str ("Hello"), usage := usageZero }
      [(str ("name"), str ("Alice"))] (by decide)⟩

/-- C6: a cloud dialect (one that demands an API key: OpenRouter and
Anthropic do) invoked with an empty key on a valid template returns a
ValidationError naming the api_key field and performs zero transport
calls. -/
theorem provider_invoke_missing_api_key :
    (∀ (ρ : Type) (d : Dialect) (o : LLMOptions) (t : Template)
        (options : List (InvokeOptions → InvokeOptions))
        (post : ChatCompletionsRequest → Nat → Except GoError ρ)
        (decode : ρ → Except GoError ChatCompletionsResponse)
        (unmarshalTarget : Str → Option GoError) (keyMsg : Str),
      Template.validate t = none →
      d.apiKeyRequiredMsg = some keyMsg →
      o.apiKey = [] →
      providerInvoke ρ d o t options post decode unmarshalTarget =
        (Except.error (NewValidationError (str ("api_key")) keyMsg (GoValue.s [])), 0))
  ∧ openRouterDialect.apiKeyRequiredMsg = some (str ("OpenRouter API key is required"))
  ∧ anthropicDialect.apiKeyRequiredMsg = some (str ("Anthropic API key is required")) := by
  refine ⟨?_, rfl, rfl⟩
  intro ρ d o t options post decode unmarshalTarget keyMsg hval hd hkey
  simp [providerInvoke, hval, hd, hkey]

/-- Witness for C6: OpenRouter with the default (empty) API key on a valid
template fails with the api_key ValidationError after zero transport
calls. -/
theorem provider_invoke_missing_api_key_witness :
    providerInvoke Unit openRouterDialect openRouterDefaults
        (From [FromUser (str ("hi"))]) []
        (fun _ _ => Except.ok ())
        (fun _ => Except.error (GoError.external (str ("no decode"))))
        (fun _ => none) =
      (Except.error (NewValidationError (str ("api_key"))
        (str ("OpenRouter API key is required")) (GoValue.s [])), 0) :=
  provider_invoke_missing_api_key.1 Unit openRouterDialect openRouterDefaults
    (From [FromUser (str ("hi"))]) []
    (fun _ _ => Except.ok ())
    (fun _ => Except.error (GoError.external (str ("no decode"))))
    (fun _ => none) (str ("OpenRouter API key is required")) rfl rfl rfl

/-- C7: Validate on a template with zero messages fails with the error whose
message is "template cannot be empty"; on a non-empty template whose first
invalid message sits at position i it fails with a TemplateError naming
message[i] and wrapping that message's ValidationError; and on a non-empty
template of valid messages it succeeds. -/
theorem template_validate_positions :
    (∀ (t : Template), t.message = [] →
        Template.validate t = some (NewValidationError (str ("messages"))
          (str ("template cannot be empty")) (GoValue.msgs t.message)))
  ∧ (∀ (t : Template) (i : Nat) (h : i < t.message.length) (e : GoError),
        (∀ (j : Nat) (hj : j < i),
          Message.validate (t.message.get ⟨j, Nat.lt_trans hj h⟩) = none) →
        Message.validate (t.message.get ⟨i, h⟩) = some e →
        Template.validate t = some (NewTemplateError
          (str ("message[") ++ natStr i ++ str ("]"))
          (str ("validation failed")) (some e)))
  ∧ (∀ (t : Template), t.message ≠ [] →
        (∀ m ∈ t.message, Message.validate m = none) →
        Template.validate t = none) := by
  refine ⟨?_, ?_, ?_⟩
  · intro t ht
    simp [Template.validate, ht]
  · intro t i h e hprev hfail
    have hlen : ¬ t.message.length = 0 := by omega
    simp only [Template.validate, if_neg hlen]
    have := validateFrom_first_fail t.message 0 i h e hprev hfail
    simpa using this
  · intro t ht hall
    have hlen : ¬ t.message.length = 0 := by
      intro h0; exact ht (List.length_eq_zero.mp h0)
    simp only [Template.validate, if_neg hlen]
    exact validateFrom_all_none t.message 0 hall

/-- Witness for C7: an empty template, a template whose second message has
empty content, and a valid singleton template. -/
theorem template_validate_positions_witness :
    Template.validate (From []) = some (NewValidationError (str ("messages"))
        (str ("template cannot be empty")) (GoValue.msgs []))
  ∧ Template.validate (From [FromSystem (str ("a")), FromUser (str (""))]) =
      some (NewTemplateError (str ("message[1]")) (str ("validation failed"))
        (some (NewValidationError (str ("content")) (str ("cannot be empty")) (GoValue.s []))))
  ∧ Template.validate (From [FromSystem (str ("a"))]) = none :=
  ⟨template_validate_positions.1 (From []) rfl,
   template_validate_positions.2.1 (From [FromSystem (str ("a")), FromUser (str (""))]) 1
     (by decide)
     (NewValidationError (str ("content")) (str ("cannot be empty")) (GoValue.s []))
     (fun j hj =>
       match j, hj with
       | 0, _ => rfl
       | j + 1, hj => absurd hj (by omega))
     rfl,
   template_validate_positions.2.2 (From [FromSystem (str ("a"))]) (by decide)
     (by intro m hm; cases hm with
         | head => rfl
         | tail _ h => cases h)⟩

/-- C8: invoking a message or a template with an empty variable mapping (a
nil Go map and an empty one both have length zero) returns the identical
value. -/
theorem invoke_empty_mapping_identity :
    (∀ (m : Message), Message.invoke m [] = m)
  ∧ (∀ (t : Template), Template.invoke t [] = t) :=
  ⟨fun _ => rfl, fun _ => rfl⟩

/-- C9: each errorbank constructor's value satisfies exactly the matching
classification predicate, whatever the operation, field, message strings and
wrapped cause are — the predicates inspect only the error's kind, never its
text. -/
theorem errorbank_predicates_classify :
    (∀ (operation msg : Str) (cause : Option GoError),
        IsMessageError (some (NewMessageError operation msg cause)) = true ∧
        IsTemplateError (some (NewMessageError operation msg cause)) = false ∧
        IsValidationError (some (NewMessageError operation msg cause)) = false)
  ∧ (∀ (varName msg : Str) (cause : Option GoError),
        IsMessageError (some (NewTemplateError varName msg cause)) = false ∧
        IsTemplateError (some (NewTemplateError varName msg cause)) = true ∧
        IsValidationError (some (NewTemplateError varName msg cause)) = false)
  ∧ (∀ (field msg : Str) (value : GoValue),
        IsMessageError (some (NewValidationError field msg value)) = false ∧
        IsTemplateError (some (NewValidationError field msg value)) = false ∧
        IsValidationError (some (NewValidationError field msg value)) = true) :=
  ⟨fun _ _ _ => ⟨rfl, rfl, rfl⟩, fun _ _ _ => ⟨rfl, rfl, rfl⟩, fun _ _ _ => ⟨rfl, rfl, rfl⟩⟩

/-- C10: substitution touches only content: Invoke on a message preserves
its role and usage for every mapping, and Invoke on a template preserves
the number of messages and acts positionally as the message-level Invoke. -/
theorem invoke_preserves_frame :
    (∀ (m : Message) (vars : List (Str × Str)),
        (Message.invoke m vars).role = m.role ∧ (Message.invoke m vars).usage = m.usage)
  ∧ (∀ (t : Template) (vars : List (Str × Str)),
        (Template.invoke t vars).message.length = t.message.length ∧
        (Template.invoke t vars).message = t.message.map (fun m => Message.invoke m vars)) := by
  constructor
  · intro m vars
    by_cases h : vars.length = 0 <;> simp [Message.invoke, h]
  · intro t vars
    by_cases h : vars.length = 0
    · have hv : vars = [] := List.length_eq_zero.mp h
      subst hv
      simp [Template.invoke, Message.invoke]
    · simp [Template.invoke, h]

end Tars
